import Mathlib

/-!
Verification development for the email-queue-service job lifecycle engine
(`service/email_service.go`). The Go service is embedded shallowly: channel
buffers become lists with an explicit capacity bound, the detached per-retry
timers become a list of pending (delay, job) pairs, Prometheus counters become
natural numbers, and the concurrent system is modelled as an interleaving
semantics: each atomic transition of the program (an enqueue, a worker taking
and processing one job, a retry timer firing, the shutdown call) is one event,
and an execution is a list of events folded over the state.
-/

/-- Embeds `models.EmailJob` (package `models`, reconstructed from its field
usage in `handlers/http_handlers.go` and `service/email_service.go`): fields
`To`, `Subject`, `Body` (strings) and `Retries` (integer starting at 0). -/
structure EmailJob where
  To : String
  Subject : String
  Body : String
  Retries : Nat
deriving DecidableEq, Repr

/-- Byte length of a string under UTF-8, i.e. Go `len(s)` on a Go string. -/
def goLen (s : String) : Nat := (s.data.map Char.utf8Size).sum

/-- Whether the final byte of the UTF-8 encoding of `s` is 0x21, i.e. the Go
test `s[len(s)-1] == 0x21`. The byte 0x21 occurs in UTF-8 only as the
single-byte encoding of the character with code point 0x21, so this equals the
last-character test. -/
def lastByteIsBang (s : String) : Bool := s.data.getLast? == some '!'

/-- Embeds the failure guard of `processJob` (email_service.go:154):
`job.Retries == 0 && len(job.Subject) > 10 && job.Subject[len(job.Subject)-1] == 0x21`. -/
def shouldFail (job : EmailJob) : Bool :=
  job.Retries == 0 && decide (goLen job.Subject > 10) && lastByteIsBang job.Subject

/-- Embeds the `EmailService` struct (email_service.go:15): the two buffered
channels become lists paired with their fixed capacities, the dead-letter
slice and the three Prometheus counters are kept as-is, and the detached
retry-timer goroutines spawned by `handleJobFailure` are recorded as a list of
pending (delay, job) pairs. `closed` records whether `close(es.jobQueue)` has
run (the `Shutdown` path). -/
structure EmailService where
  workers : Nat
  queueSize : Nat
  retryCap : Nat
  jobQueue : List EmailJob
  retryQueue : List EmailJob
  deadLetterLog : List EmailJob
  pendingTimers : List (Nat × EmailJob)
  jobsProcessed : Nat
  jobsFailed : Nat
  deadLetterJobs : Nat
  closed : Bool
deriving DecidableEq, Repr

/-- Embeds `NewEmailService(workers, queueSize)` (email_service.go:33): the
primary channel has capacity `queueSize`, the retry channel capacity
`queueSize/2` (Go integer division), all buffers and counters start empty. -/
def NewEmailService (workers queueSize : Nat) : EmailService :=
  { workers := workers
    queueSize := queueSize
    retryCap := queueSize / 2
    jobQueue := []
    retryQueue := []
    deadLetterLog := []
    pendingTimers := []
    jobsProcessed := 0
    jobsFailed := 0
    deadLetterJobs := 0
    closed := false }

/-- Outcome of `EnqueueJob` as seen by its caller: `ok` for a nil error,
`queueFull` for the "queue is full" error, `panicked` for the Go runtime
panic raised by a send on a closed channel. -/
inductive EnqueueResult where
  | ok
  | queueFull
  | panicked
deriving DecidableEq, Repr

/-- Embeds `EnqueueJob` (email_service.go:89): a `select` with a send on
`es.jobQueue` and a `default` branch. Per the Go specification a send on a
closed channel proceeds by raising a runtime panic (the `default` branch is
not taken); on an open channel with buffer space the job is appended and nil
is returned; on an open full channel the `default` branch returns the
"queue is full" error and the state is untouched. -/
def EnqueueJob (s : EmailService) (job : EmailJob) : EmailService × EnqueueResult :=
  if s.closed then (s, .panicked)
  else if s.jobQueue.length < s.queueSize then
    ({ s with jobQueue := s.jobQueue ++ [job] }, .ok)
  else (s, .queueFull)

/-- Embeds `moveToDeadLetter` (email_service.go:188): under the dead-letter
lock, append the job to `deadLetterLog` and increment the `jobsFailed` and
`deadLetterJobs` counters. -/
def moveToDeadLetter (s : EmailService) (job : EmailJob) : EmailService :=
  { s with
    deadLetterLog := s.deadLetterLog ++ [job]
    jobsFailed := s.jobsFailed + 1
    deadLetterJobs := s.deadLetterJobs + 1 }

/-- Embeds `handleJobFailure` (email_service.go:165): increment `job.Retries`;
if the new count is at most 3, spawn a detached timer goroutine that sleeps
`job.Retries` seconds and then attempts a non-blocking send to the retry
queue (recorded here as a pending (delay, job) pair); otherwise move the job
to the dead-letter log. -/
def handleJobFailure (s : EmailService) (job : EmailJob) : EmailService :=
  if job.Retries + 1 ≤ 3 then
    { s with pendingTimers :=
        s.pendingTimers ++ [(job.Retries + 1, { job with Retries := job.Retries + 1 })] }
  else
    moveToDeadLetter s { job with Retries := job.Retries + 1 }

/-- Embeds the body of the timer goroutine spawned by `handleJobFailure`
(email_service.go:172): after the sleep, a `select` with a send on
`es.retryQueue` and a `default` branch that moves the job to the dead-letter
log when the retry queue is full. The retry channel is never closed. -/
def submitRetry (s : EmailService) (job : EmailJob) : EmailService :=
  if s.retryQueue.length < s.retryCap then
    { s with retryQueue := s.retryQueue ++ [job] }
  else
    moveToDeadLetter s job

/-- Embeds `processJob` (email_service.go:141). The deferred `recover` makes
any runtime fault inside the body return from `processJob` after logging,
with no further state change; `fault` says whether such a fault occurs during
the simulated delivery. Otherwise: the job fails when the guard at line 154
holds, entering `handleJobFailure`; else the `jobsProcessed` counter is
incremented and the job is discarded. -/
def processJob (s : EmailService) (job : EmailJob) (fault : Bool) : EmailService :=
  if fault then s
  else if shouldFail job then handleJobFailure s job
  else { s with jobsProcessed := s.jobsProcessed + 1 }

/-- Embeds `Shutdown` (email_service.go:225) as far as shared state goes:
`close(es.jobQueue)` marks the job queue closed; closing the `shutdown`
channel and `wg.Wait()` only affect which further events can occur. -/
def Shutdown (s : EmailService) : EmailService :=
  { s with closed := true }

/-- One atomic transition of the concurrent system: an external `EnqueueJob`
call, a worker taking one job from the primary or the retry queue and running
`processJob` on it (with `fault` saying whether that run hits a runtime
fault), one pending retry timer firing, or the `Shutdown` call. -/
inductive Event where
  | enqueue (job : EmailJob)
  | workerPrimary (fault : Bool)
  | workerRetry (fault : Bool)
  | timerFire
  | shutdownCall
deriving DecidableEq, Repr

/-- The transition function: how one event changes the service state. A
worker or timer event with nothing available is a no-op (the corresponding
goroutine is blocked or absent). -/
def step (s : EmailService) (e : Event) : EmailService :=
  match e with
  | .enqueue job => (EnqueueJob s job).1
  | .workerPrimary fault =>
    match s.jobQueue with
    | [] => s
    | job :: rest => processJob { s with jobQueue := rest } job fault
  | .workerRetry fault =>
    match s.retryQueue with
    | [] => s
    | job :: rest => processJob { s with retryQueue := rest } job fault
  | .timerFire =>
    match s.pendingTimers with
    | [] => s
    | (_, job) :: rest => submitRetry { s with pendingTimers := rest } job
  | .shutdownCall => Shutdown s

/-- An execution: fold a list of events over a state. -/
def run (s : EmailService) (events : List Event) : EmailService :=
  events.foldl step s

/-- Embeds `GetDeadLetterJobs` (email_service.go:200) as its pure
observation: the contents of the dead-letter slice, in order. The aliasing
behaviour of the returned slice is modelled separately by `SliceHeap` below. -/
def GetDeadLetterJobs (s : EmailService) : List EmailJob :=
  s.deadLetterLog

/-- A heap of email-job slices, for the aliasing claim about
`GetDeadLetterJobs`: an address is an index into the heap, and the live
dead-letter slice lives at one such address. Go slice mutation is a write
through an address; `make` plus `copy` is an allocation of a fresh address
holding equal contents. -/
structure SliceHeap where
  arrays : List (List EmailJob)
deriving DecidableEq, Repr

/-- Read the slice at an address. -/
def readSlice (h : SliceHeap) (a : Nat) : List EmailJob :=
  (h.arrays.get? a).getD []

/-- Overwrite element `i` of the slice at address `a`, i.e. the Go statement
`xs[i] = v` on a slice value `xs` referring to that address. -/
def setElem (h : SliceHeap) (a i : Nat) (v : EmailJob) : SliceHeap :=
  ⟨h.arrays.set a ((readSlice h a).set i v)⟩

/-- Embeds `GetDeadLetterJobs` (email_service.go:200) at the heap level:
`jobs := make([]EmailJob, len(log)); copy(jobs, log); return jobs` allocates
a fresh slice holding a copy of the live log at `logAddr` and returns its
address. -/
def GetDeadLetterJobsHeap (h : SliceHeap) (logAddr : Nat) : SliceHeap × Nat :=
  (⟨h.arrays ++ [readSlice h logAddr]⟩, h.arrays.length)

/-- The counter invariant: the permanently-failed counter, the dead-lettered
counter and the length of the dead-letter log agree. -/
def counterInv (s : EmailService) : Prop :=
  s.jobsFailed = s.deadLetterLog.length ∧ s.deadLetterJobs = s.deadLetterLog.length

/-- The job from the dead-letter scenario of the spec: its subject has 15
bytes and ends in the byte 0x21, its retry count is 0. -/
def sampleFailJob : EmailJob := ⟨"a@b.com", "This will fail!", "x", 0⟩

/-- The job from the success scenario of the spec: a 2-byte subject. -/
def sampleOkJob : EmailJob := ⟨"a@b.com", "Hi", "x", 0⟩

theorem counterInv_moveToDeadLetter (s : EmailService) (job : EmailJob)
    (h : counterInv s) : counterInv (moveToDeadLetter s job) := by
  obtain ⟨h1, h2⟩ := h
  simp [counterInv, moveToDeadLetter, h1, h2]

theorem counterInv_handleJobFailure (s : EmailService) (job : EmailJob)
    (h : counterInv s) : counterInv (handleJobFailure s job) := by
  unfold handleJobFailure
  split
  · exact h
  · exact counterInv_moveToDeadLetter _ _ h

theorem counterInv_processJob (s : EmailService) (job : EmailJob) (fault : Bool)
    (h : counterInv s) : counterInv (processJob s job fault) := by
  unfold processJob
  split
  · exact h
  · split
    · exact counterInv_handleJobFailure _ _ h
    · exact h

theorem counterInv_submitRetry (s : EmailService) (job : EmailJob)
    (h : counterInv s) : counterInv (submitRetry s job) := by
  unfold submitRetry
  split
  · exact h
  · exact counterInv_moveToDeadLetter _ _ h

theorem counterInv_EnqueueJob (s : EmailService) (job : EmailJob)
    (h : counterInv s) : counterInv (EnqueueJob s job).1 := by
  unfold EnqueueJob
  split
  · exact h
  · split
    · exact h
    · exact h

theorem counterInv_step (s : EmailService) (e : Event) (h : counterInv s) :
    counterInv (step s e) := by
  cases e with
  | enqueue job => exact counterInv_EnqueueJob s job h
  | workerPrimary fault =>
      simp only [step]
      split
      · exact h
      · exact counterInv_processJob _ _ _ h
  | workerRetry fault =>
      simp only [step]
      split
      · exact h
      · exact counterInv_processJob _ _ _ h
  | timerFire =>
      simp only [step]
      split
      · exact h
      · exact counterInv_submitRetry _ _ h
  | shutdownCall => exact h

theorem counterInv_run (events : List Event) (s : EmailService)
    (h : counterInv s) : counterInv (run s events) := by
  induction events generalizing s with
  | nil => exact h
  | cons e es ih => exact ih (step s e) (counterInv_step s e h)

theorem config_EnqueueJob (s : EmailService) (job : EmailJob) :
    ((EnqueueJob s job).1).workers = s.workers ∧
      ((EnqueueJob s job).1).queueSize = s.queueSize ∧
      ((EnqueueJob s job).1).retryCap = s.retryCap := by
  by_cases h1 : s.closed = true
  · simp [EnqueueJob, h1]
  · by_cases h2 : s.jobQueue.length < s.queueSize
    · simp [EnqueueJob, h1, h2]
    · simp [EnqueueJob, h1, h2]

theorem config_handleJobFailure (s : EmailService) (job : EmailJob) :
    (handleJobFailure s job).workers = s.workers ∧
      (handleJobFailure s job).queueSize = s.queueSize ∧
      (handleJobFailure s job).retryCap = s.retryCap := by
  by_cases h3 : job.Retries + 1 ≤ 3 <;>
    simp [handleJobFailure, moveToDeadLetter, h3]

theorem config_processJob (s : EmailService) (job : EmailJob) (fault : Bool) :
    (processJob s job fault).workers = s.workers ∧
      (processJob s job fault).queueSize = s.queueSize ∧
      (processJob s job fault).retryCap = s.retryCap := by
  by_cases h1 : fault = true
  · simp [processJob, h1]
  · by_cases h2 : shouldFail job = true
    · simp [processJob, h1, h2, config_handleJobFailure s job]
    · simp [processJob, h1, h2]

theorem config_submitRetry (s : EmailService) (job : EmailJob) :
    (submitRetry s job).workers = s.workers ∧
      (submitRetry s job).queueSize = s.queueSize ∧
      (submitRetry s job).retryCap = s.retryCap := by
  by_cases h1 : s.retryQueue.length < s.retryCap <;>
    simp [submitRetry, moveToDeadLetter, h1]

theorem config_step (s : EmailService) (e : Event) :
    (step s e).workers = s.workers ∧ (step s e).queueSize = s.queueSize ∧
      (step s e).retryCap = s.retryCap := by
  cases e with
  | enqueue job => exact config_EnqueueJob s job
  | workerPrimary fault =>
      rcases hq : s.jobQueue with _ | ⟨job, rest⟩
      · simp [step, hq]
      · simpa [step, hq] using config_processJob { s with jobQueue := rest } job fault
  | workerRetry fault =>
      rcases hq : s.retryQueue with _ | ⟨job, rest⟩
      · simp [step, hq]
      · simpa [step, hq] using config_processJob { s with retryQueue := rest } job fault
  | timerFire =>
      rcases ht : s.pendingTimers with _ | ⟨⟨d, job⟩, rest⟩
      · simp [step, ht]
      · simpa [step, ht] using config_submitRetry { s with pendingTimers := rest } job
  | shutdownCall => exact ⟨rfl, rfl, rfl⟩

theorem config_run (events : List Event) (s : EmailService) :
    (run s events).workers = s.workers ∧ (run s events).queueSize = s.queueSize ∧
      (run s events).retryCap = s.retryCap := by
  induction events generalizing s with
  | nil => exact ⟨rfl, rfl, rfl⟩
  | cons e es ih =>
      have hs := config_step s e
      have ht := ih (step s e)
      exact ⟨ht.1.trans hs.1, ht.2.1.trans hs.2.1, ht.2.2.trans hs.2.2⟩

/-- C2: processing a job (with no runtime fault) fails if and only if its
retry count is 0, its subject has byte length > 10, and its subject ends in
the byte 0x21; in every other case processing succeeds: the processed counter
is incremented by 1, the job is discarded, and the failure path is never
taken (the state changes in no other way). -/
theorem C2_process_fail_iff (s : EmailService) (job : EmailJob) :
    ((job.Retries = 0 ∧ goLen job.Subject > 10 ∧ lastByteIsBang job.Subject = true) →
      shouldFail job = true ∧ processJob s job false = handleJobFailure s job) ∧
    (¬ (job.Retries = 0 ∧ goLen job.Subject > 10 ∧ lastByteIsBang job.Subject = true) →
      shouldFail job = false ∧
        processJob s job false = { s with jobsProcessed := s.jobsProcessed + 1 }) := by
  have hiff : shouldFail job = true ↔
      (job.Retries = 0 ∧ goLen job.Subject > 10 ∧ lastByteIsBang job.Subject = true) := by
    simp only [shouldFail, Bool.and_eq_true, beq_iff_eq, decide_eq_true_iff]
    exact and_assoc
  constructor
  · intro h
    have hf : shouldFail job = true := hiff.mpr h
    exact ⟨hf, by simp [processJob, hf]⟩
  · intro h
    have hf : shouldFail job = false := by
      cases hsf : shouldFail job
      · rfl
      · exact absurd (hiff.mp hsf) h
    exact ⟨hf, by simp [processJob, hf]⟩

/-- Witness for C2 at concrete inputs: the spec scenario job with a 15-byte
subject ending in the byte 0x21 fails, and the short-subject scenario job
succeeds and bumps the processed counter. -/
theorem C2_process_fail_iff_witness :
    (shouldFail sampleFailJob = true ∧
      processJob (NewEmailService 3 100) sampleFailJob false =
        handleJobFailure (NewEmailService 3 100) sampleFailJob) ∧
    (shouldFail sampleOkJob = false ∧
      processJob (NewEmailService 3 100) sampleOkJob false =
        { NewEmailService 3 100 with
            jobsProcessed := (NewEmailService 3 100).jobsProcessed + 1 }) :=
  ⟨(C2_process_fail_iff (NewEmailService 3 100) sampleFailJob).1 (by decide),
   (C2_process_fail_iff (NewEmailService 3 100) sampleOkJob).2 (by decide)⟩

/-- C4: while the service is running (job queue not closed), enqueueing a job
when the primary queue has free capacity returns a nil error and appends the
job; when the primary queue is at capacity it returns the "queue is full"
error immediately and the whole service state, queues and dead-letter log
included, is unchanged. -/
theorem C4_enqueue_capacity (s : EmailService) (job : EmailJob)
    (hopen : s.closed = false) :
    (s.jobQueue.length < s.queueSize →
      EnqueueJob s job =
        ({ s with jobQueue := s.jobQueue ++ [job] }, EnqueueResult.ok)) ∧
    (¬ s.jobQueue.length < s.queueSize →
      EnqueueJob s job = (s, EnqueueResult.queueFull)) := by
  constructor <;> intro h <;> simp [EnqueueJob, hopen, h]

/-- Witness for C4 at capacity 1: the first enqueue is accepted and stored,
the second is rejected with the queue-full error and changes nothing. -/
theorem C4_enqueue_capacity_witness :
    EnqueueJob (NewEmailService 3 1) sampleOkJob =
      ({ NewEmailService 3 1 with jobQueue := [sampleOkJob] }, EnqueueResult.ok) ∧
    EnqueueJob { NewEmailService 3 1 with jobQueue := [sampleOkJob] } sampleFailJob =
      ({ NewEmailService 3 1 with jobQueue := [sampleOkJob] }, EnqueueResult.queueFull) :=
  ⟨(C4_enqueue_capacity (NewEmailService 3 1) sampleOkJob rfl).1 (by decide),
   (C4_enqueue_capacity { NewEmailService 3 1 with jobQueue := [sampleOkJob] }
      sampleFailJob rfl).2 (by decide)⟩

/-- C5: the claim says that after `Shutdown()` every subsequent `EnqueueJob`
returns an error and nothing panics. On the code this is false: `Shutdown`
runs `close(es.jobQueue)`, and a subsequent `EnqueueJob` executes a `select`
whose send case is on that closed channel, which by the Go specification
raises a runtime panic instead of taking the `default` branch. This theorem
evaluates the embedded code on the divergent path: after `Shutdown`, every
`EnqueueJob` call ends in the panic outcome. -/
theorem C5_enqueue_after_shutdown_panics (s : EmailService) (job : EmailJob) :
    EnqueueJob (Shutdown s) job = (Shutdown s, EnqueueResult.panicked) := by
  simp [EnqueueJob, Shutdown]

/-- C8: the dead-letter record operation appends exactly one record at the
end of the log, leaves every existing record in place unchanged, increments
the permanently-failed and dead-lettered counters each by exactly 1, and
touches nothing else. -/
theorem C8_moveToDeadLetter_spec (s : EmailService) (job : EmailJob) :
    (moveToDeadLetter s job).deadLetterLog = s.deadLetterLog ++ [job] ∧
    (∀ i, i < s.deadLetterLog.length →
      ((moveToDeadLetter s job).deadLetterLog).get? i = s.deadLetterLog.get? i) ∧
    (moveToDeadLetter s job).jobsFailed = s.jobsFailed + 1 ∧
    (moveToDeadLetter s job).deadLetterJobs = s.deadLetterJobs + 1 ∧
    (moveToDeadLetter s job).jobsProcessed = s.jobsProcessed ∧
    (moveToDeadLetter s job).jobQueue = s.jobQueue ∧
    (moveToDeadLetter s job).retryQueue = s.retryQueue ∧
    (moveToDeadLetter s job).pendingTimers = s.pendingTimers := by
  refine ⟨rfl, ?_, rfl, rfl, rfl, rfl, rfl, rfl⟩
  intro i hi
  simp [moveToDeadLetter, List.getElem?_append_left hi]

/-- Witness for C8: recording a second job leaves the first record at
position 0 of the log unchanged. -/
theorem C8_moveToDeadLetter_spec_witness :
    ((moveToDeadLetter
        { NewEmailService 3 100 with deadLetterLog := [sampleOkJob] }
        sampleFailJob).deadLetterLog).get? 0 =
      ({ NewEmailService 3 100 with deadLetterLog := [sampleOkJob] }).deadLetterLog.get? 0 :=
  (C8_moveToDeadLetter_spec
    { NewEmailService 3 100 with deadLetterLog := [sampleOkJob] }
    sampleFailJob).2.1 0 (by decide)

/-- C9: the claim says the retry-queue capacity is half the primary capacity
rounded down but never less than 1. The code computes `queueSize/2` with no
lower bound: with primary capacity 1 the retry-queue capacity is 0, which is
less than 1. -/
theorem C9_counterexample :
    (NewEmailService 3 1).queueSize = 1 ∧
      (NewEmailService 3 1).retryCap = 0 ∧ ¬ 1 ≤ (NewEmailService 3 1).retryCap := by
  decide

/-- C9 (amended): the service is constructed with a retry-queue capacity of
exactly half the primary capacity rounded down, with no lower bound, and the
worker count and both queue capacities are unchanged by every event of the
service lifetime. -/
theorem C9_amended_config (w q : Nat) (events : List Event) :
    (NewEmailService w q).queueSize = q ∧
    (NewEmailService w q).retryCap = q / 2 ∧
    (run (NewEmailService w q) events).workers = w ∧
    (run (NewEmailService w q) events).queueSize = q ∧
    (run (NewEmailService w q) events).retryCap = q / 2 := by
  have h := config_run events (NewEmailService w q)
  exact ⟨rfl, rfl, h.1, h.2.1, h.2.2⟩

/-- C10: in every state reachable from a freshly constructed service by any
sequence of events, the permanently-failed counter and the dead-lettered
counter both equal the length of the dead-letter log: the two counters are
incremented only inside the dead-letter record operation, together with the
append, and every other operation leaves all three unchanged. -/
theorem C10_counter_invariant (w q : Nat) (events : List Event) :
    (run (NewEmailService w q) events).jobsFailed =
        ((run (NewEmailService w q) events).deadLetterLog).length ∧
      (run (NewEmailService w q) events).deadLetterJobs =
        ((run (NewEmailService w q) events).deadLetterLog).length :=
  counterInv_run events (NewEmailService w q) ⟨rfl, rfl⟩

/-- C3: on job failure the retry count is incremented by exactly 1; if the
new count is at most 3 a delayed re-submission is scheduled whose delay in
time units equals the new count (1, 2, 3 for the 1st, 2nd, 3rd failure); when
that timer fires, a full retry queue routes the job directly to the
dead-letter sink, an unsaturated one re-queues it; if the new count exceeds 3
the job goes directly to the dead-letter sink; and every timer ever scheduled
carries a retry count of at most 3, so no job is retried more than 3 times. -/
theorem C3_retry_policy (s : EmailService) (job : EmailJob) :
    (job.Retries + 1 ≤ 3 →
      handleJobFailure s job =
        { s with pendingTimers :=
            s.pendingTimers ++
              [(job.Retries + 1, { job with Retries := job.Retries + 1 })] }) ∧
    (3 < job.Retries + 1 →
      handleJobFailure s job =
        moveToDeadLetter s { job with Retries := job.Retries + 1 }) ∧
    (∀ j, s.retryQueue.length < s.retryCap →
      submitRetry s j = { s with retryQueue := s.retryQueue ++ [j] }) ∧
    (∀ j, ¬ s.retryQueue.length < s.retryCap →
      submitRetry s j = moveToDeadLetter s j) ∧
    (∀ d j, (d, j) ∈ (handleJobFailure s job).pendingTimers →
      (d, j) ∈ s.pendingTimers ∨ (j.Retries ≤ 3 ∧ d = j.Retries)) := by
  refine ⟨?_, ?_, ?_, ?_, ?_⟩
  · intro h
    simp [handleJobFailure, h]
  · intro h
    simp [handleJobFailure, Nat.not_le.mpr h]
  · intro j h
    simp [submitRetry, h]
  · intro j h
    simp [submitRetry, h]
  · intro d j hmem
    by_cases h3 : job.Retries + 1 ≤ 3
    · rw [handleJobFailure, if_pos h3] at hmem
      simp only [List.mem_append, List.mem_singleton, Prod.mk.injEq] at hmem
      rcases hmem with hm | ⟨hd, hj⟩
      · exact Or.inl hm
      · subst hd
        subst hj
        exact Or.inr ⟨h3, rfl⟩
    · rw [handleJobFailure, if_neg h3] at hmem
      exact Or.inl hmem

/-- Witness for C3 at concrete inputs: a first failure schedules a delay-1
timer, a fourth failure goes straight to the dead-letter sink, a fired timer
re-queues when the retry queue (capacity 1) is empty and dead-letters when it
is full, and the one scheduled timer carries retry count 1. -/
theorem C3_retry_policy_witness :
    handleJobFailure (NewEmailService 3 2) sampleFailJob =
      { NewEmailService 3 2 with
          pendingTimers := (NewEmailService 3 2).pendingTimers ++
            [(sampleFailJob.Retries + 1,
              { sampleFailJob with Retries := sampleFailJob.Retries + 1 })] } ∧
    handleJobFailure (NewEmailService 3 2) { sampleFailJob with Retries := 3 } =
      moveToDeadLetter (NewEmailService 3 2)
        { { sampleFailJob with Retries := 3 } with
            Retries := ({ sampleFailJob with Retries := 3 }).Retries + 1 } ∧
    submitRetry (NewEmailService 3 2) sampleOkJob =
      { NewEmailService 3 2 with
          retryQueue := (NewEmailService 3 2).retryQueue ++ [sampleOkJob] } ∧
    submitRetry { NewEmailService 3 2 with retryQueue := [sampleOkJob] } sampleFailJob =
      moveToDeadLetter { NewEmailService 3 2 with retryQueue := [sampleOkJob] }
        sampleFailJob ∧
    ((sampleFailJob.Retries + 1, { sampleFailJob with Retries := sampleFailJob.Retries + 1 }) ∈
        (NewEmailService 3 2).pendingTimers ∨
      ({ sampleFailJob with Retries := sampleFailJob.Retries + 1 }).Retries ≤ 3 ∧
        sampleFailJob.Retries + 1 =
          ({ sampleFailJob with Retries := sampleFailJob.Retries + 1 }).Retries) :=
  ⟨(C3_retry_policy (NewEmailService 3 2) sampleFailJob).1 (by decide),
   (C3_retry_policy (NewEmailService 3 2) { sampleFailJob with Retries := 3 }).2.1 (by decide),
   (C3_retry_policy (NewEmailService 3 2) sampleFailJob).2.2.1 sampleOkJob (by decide),
   (C3_retry_policy { NewEmailService 3 2 with retryQueue := [sampleOkJob] }
      sampleFailJob).2.2.2.1 sampleFailJob (by decide),
   (C3_retry_policy (NewEmailService 3 2) sampleFailJob).2.2.2.2
      (sampleFailJob.Retries + 1) { sampleFailJob with Retries := sampleFailJob.Retries + 1 }
      (by decide)⟩

/-- C6: the claim says a job whose processing hits an unexpected runtime
fault is routed through the retry path exactly like a normal failed delivery.
On the code this is false: the deferred `recover` in `processJob` only logs
the fault and returns; the faulted job is dropped without entering
`handleJobFailure`. At a concrete input: a fault during the scenario job
leaves the entire state unchanged with no retry timer scheduled, while the
normal failure path of the same job schedules a delay-1 retry timer. -/
theorem C6_counterexample :
    processJob (NewEmailService 3 100) sampleFailJob true = NewEmailService 3 100 ∧
    (processJob (NewEmailService 3 100) sampleFailJob true).pendingTimers = [] ∧
    (handleJobFailure (NewEmailService 3 100) sampleFailJob).pendingTimers =
      [(1, { sampleFailJob with Retries := 1 })] := by
  decide

/-- C6 (amended): a runtime fault while processing a job is caught by the
deferred `recover` and only logged: the faulted job is dropped with no state
change at all (no retry is scheduled, no counter moves, nothing is
dead-lettered), and the worker survives and keeps serving subsequent jobs, as
the next queued job is processed normally. -/
theorem C6_amended_fault_drop (s : EmailService) (jobA jobB : EmailJob)
    (rest : List EmailJob) (hq : s.jobQueue = jobA :: jobB :: rest)
    (hB : shouldFail jobB = false) :
    processJob s jobA true = s ∧
    run s [Event.workerPrimary true, Event.workerPrimary false] =
      { s with jobQueue := rest, jobsProcessed := s.jobsProcessed + 1 } := by
  refine ⟨by simp [processJob], ?_⟩
  simp [run, List.foldl, step, hq, processJob, hB]

/-- Witness for C6 (amended): with the scenario fail-job faulting at the head
of the queue and the short-subject job behind it, the run drops the first and
processes the second. -/
theorem C6_amended_fault_drop_witness :
    run { NewEmailService 3 100 with jobQueue := [sampleFailJob, sampleOkJob] }
        [Event.workerPrimary true, Event.workerPrimary false] =
      { { NewEmailService 3 100 with jobQueue := [sampleFailJob, sampleOkJob] } with
          jobQueue := ([] : List EmailJob),
          jobsProcessed :=
            ({ NewEmailService 3 100 with
                jobQueue := [sampleFailJob, sampleOkJob] }).jobsProcessed + 1 } :=
  (C6_amended_fault_drop
    { NewEmailService 3 100 with jobQueue := [sampleFailJob, sampleOkJob] }
    sampleFailJob sampleOkJob [] rfl (by decide)).2

/-- C1: the claim says a job with subject byte-length > 10 ending in the byte
0x21 and retry count 0 ends up, after exactly 3 retries, dead-lettered with
retry count 4. On the code this is false: the failure guard requires retry
count 0, so the job fails only on its first attempt, and the single scheduled
retry (count 1) succeeds. At the concrete spec-scenario input: the guard does
fire on the first attempt, yet running the complete lifecycle (enqueue, first
processing attempt, retry timer firing, retry processing attempt) ends with
the job counted as processed, every queue and timer list empty, and an empty
dead-letter log — the job is never dead-lettered at all. -/
theorem C1_counterexample :
    shouldFail sampleFailJob = true ∧
    run (NewEmailService 3 100)
        [Event.enqueue sampleFailJob, Event.workerPrimary false,
         Event.timerFire, Event.workerRetry false] =
      { NewEmailService 3 100 with jobsProcessed := 1 } ∧
    (run (NewEmailService 3 100)
        [Event.enqueue sampleFailJob, Event.workerPrimary false,
         Event.timerFire, Event.workerRetry false]).deadLetterLog = [] := by
  decide

/-- C1 (amended): for every job with subject byte-length > 10 ending in the
byte 0x21 and retry count 0, submitted to a fresh service whose retry queue
has at least one slot (primary capacity at least 2): the first processing
attempt fails and schedules exactly one delayed retry with delay 1 and retry
count 1; that retried job no longer satisfies the failure guard, so the
retry attempt succeeds; the complete lifecycle ends with the job counted as
processed once, both queues and the timer list empty, and the job never
appears in the dead-letter listing. -/
theorem C1_amended_lifecycle (w q : Nat) (job : EmailJob) (hq : 2 ≤ q)
    (h0 : job.Retries = 0) (hlen : goLen job.Subject > 10)
    (hbang : lastByteIsBang job.Subject = true) :
    shouldFail job = true ∧
    run (NewEmailService w q) [Event.enqueue job, Event.workerPrimary false] =
      { NewEmailService w q with pendingTimers := [(1, { job with Retries := 1 })] } ∧
    shouldFail { job with Retries := 1 } = false ∧
    run (NewEmailService w q)
        [Event.enqueue job, Event.workerPrimary false, Event.timerFire,
         Event.workerRetry false] =
      { NewEmailService w q with jobsProcessed := 1 } := by
  have h0q : 0 < q := by omega
  have hrc : 0 < q / 2 := by omega
  have hf : shouldFail job = true := by
    simp [shouldFail, h0, hbang, decide_eq_true hlen]
  have hf1 : shouldFail { job with Retries := 1 } = false := by
    simp [shouldFail]
  refine ⟨hf, ?_, hf1, ?_⟩
  · simp [run, List.foldl, step, EnqueueJob, NewEmailService, h0q, processJob, hf,
      handleJobFailure, h0]
  · simp [run, List.foldl, step, EnqueueJob, NewEmailService, h0q, hrc, processJob, hf,
      hf1, handleJobFailure, submitRetry, h0]

/-- Witness for C1 (amended) at the spec-scenario job and a fresh service
with 3 workers and primary capacity 100. -/
theorem C1_amended_lifecycle_witness :
    shouldFail sampleFailJob = true ∧
    run (NewEmailService 3 100)
        [Event.enqueue sampleFailJob, Event.workerPrimary false, Event.timerFire,
         Event.workerRetry false] =
      { NewEmailService 3 100 with jobsProcessed := 1 } :=
  ⟨(C1_amended_lifecycle 3 100 sampleFailJob (by decide) (by decide) (by decide)
      (by decide)).1,
   (C1_amended_lifecycle 3 100 sampleFailJob (by decide) (by decide) (by decide)
      (by decide)).2.2.2⟩

theorem readSlice_concat (l : List (List EmailJob)) (c : List EmailJob) :
    readSlice ⟨l ++ [c]⟩ l.length = c := by
  simp [readSlice, List.getElem?_concat_length]

theorem readSlice_append_left (l : List (List EmailJob)) (c : List EmailJob)
    (a : Nat) (h : a < l.length) : readSlice ⟨l ++ [c]⟩ a = readSlice ⟨l⟩ a := by
  simp [readSlice, List.getElem?_append_left h]

theorem readSlice_set_ne (l : List (List EmailJob)) (a b : Nat)
    (c : List EmailJob) (h : a ≠ b) : readSlice ⟨l.set a c⟩ b = readSlice ⟨l⟩ b := by
  simp [readSlice, List.getElem?_set_ne h]

/-- C7: `GetDeadLetterJobs` returns the current dead-letter log in insertion
order as an independent copy living at a fresh address: overwriting any
element of the returned slice leaves the live log unchanged, and a subsequent
call still returns the original contents. -/
theorem C7_deadletter_defensive_copy (h : SliceHeap) (logAddr : Nat)
    (hlt : logAddr < h.arrays.length) :
    readSlice (GetDeadLetterJobsHeap h logAddr).1 (GetDeadLetterJobsHeap h logAddr).2 =
      readSlice h logAddr ∧
    (GetDeadLetterJobsHeap h logAddr).2 ≠ logAddr ∧
    (∀ i v,
      readSlice
          (setElem (GetDeadLetterJobsHeap h logAddr).1
            (GetDeadLetterJobsHeap h logAddr).2 i v)
          logAddr =
        readSlice h logAddr) ∧
    (∀ i v,
      readSlice
          (GetDeadLetterJobsHeap
              (setElem (GetDeadLetterJobsHeap h logAddr).1
                (GetDeadLetterJobsHeap h logAddr).2 i v)
              logAddr).1
          (GetDeadLetterJobsHeap
              (setElem (GetDeadLetterJobsHeap h logAddr).1
                (GetDeadLetterJobsHeap h logAddr).2 i v)
              logAddr).2 =
        readSlice h logAddr) := by
  have hne : h.arrays.length ≠ logAddr := by omega
  have hlog : ∀ i v,
      readSlice
          (setElem (GetDeadLetterJobsHeap h logAddr).1
            (GetDeadLetterJobsHeap h logAddr).2 i v)
          logAddr =
        readSlice h logAddr := by
    intro i v
    show readSlice
        ⟨(h.arrays ++ [readSlice h logAddr]).set h.arrays.length _⟩ logAddr = _
    rw [readSlice_set_ne _ _ _ _ hne]
    exact readSlice_append_left h.arrays _ logAddr hlt
  refine ⟨readSlice_concat h.arrays _, hne, hlog, ?_⟩
  intro i v
  rw [show (GetDeadLetterJobsHeap
      (setElem (GetDeadLetterJobsHeap h logAddr).1
        (GetDeadLetterJobsHeap h logAddr).2 i v) logAddr) =
    (⟨(setElem (GetDeadLetterJobsHeap h logAddr).1
          (GetDeadLetterJobsHeap h logAddr).2 i v).arrays ++
        [readSlice (setElem (GetDeadLetterJobsHeap h logAddr).1
          (GetDeadLetterJobsHeap h logAddr).2 i v) logAddr]⟩,
      (setElem (GetDeadLetterJobsHeap h logAddr).1
        (GetDeadLetterJobsHeap h logAddr).2 i v).arrays.length) from rfl]
  rw [readSlice_concat]
  exact hlog i v

/-- Witness for C7: a one-slice heap holding the log `[sampleOkJob]` at
address 0; overwriting position 0 of the copy with the fail job leaves the
live log readable unchanged. -/
theorem C7_deadletter_defensive_copy_witness :
    readSlice
        (setElem (GetDeadLetterJobsHeap ⟨[[sampleOkJob]]⟩ 0).1
          (GetDeadLetterJobsHeap ⟨[[sampleOkJob]]⟩ 0).2 0 sampleFailJob)
        0 =
      readSlice ⟨[[sampleOkJob]]⟩ 0 :=
  (C7_deadletter_defensive_copy ⟨[[sampleOkJob]]⟩ 0 (by decide)).2.2.1 0 sampleFailJob
